import Mathlib

/-!
# Verification of the Oura chat agent's date-range resolution and metric aggregation

This file gives a shallow embedding, in Lean, of the pure core of the
`oura-chat-agent` repository: the settled-outcome aggregation performed by
`executeGetOuraHealthSummary` (src/oura.ts, lines 425-554), the date-range
selection step shared by all five execute functions, and the period resolver
`getDateRange` (src/utils.ts, which is documented in the specification but not
included in the sources; it is modelled from the spec, see `getDateRange`
below).

Modelling conventions:
* A settled upstream fetch (`Promise.allSettled` element) is `Settled α`.
* Numeric record fields (`score`, `steps`, `stress_high`) carry the integral
  values delivered by the Oura API; JavaScript's `sum / length` followed by
  `Math.round` is embedded exactly as the round-half-up integer `jsRoundDiv`,
  which is proved equal to `⌊mean + 1/2⌋` over `ℚ` (`jsRoundDiv_eq_jsRound`).
* A JSON `null` field and an absent optional field are both `Option.none`.
* Strings are built with `++` in the same order as the TypeScript `+=`/template
  concatenations.
-/

/-- The settled outcome of one upstream fetch, as produced by
`Promise.allSettled` in `executeGetOuraHealthSummary` (oura.ts:449-454):
either a fulfilled value or a rejected reason. -/
inductive Settled (α : Type) where
  | fulfilled (value : α)
  | rejected (reason : String)
deriving DecidableEq

/-- `status === 'rejected'` check on a settled outcome (oura.ts:524-525). -/
def Settled.isRejected {α : Type} : Settled α → Bool
  | .fulfilled _ => false
  | .rejected _ => true

/-- Response envelope of the Oura list endpoints (types.ts
`MultiDocumentResponse_*`): a `data` array and an optional pagination token
(the aggregation logic never follows `next_token`). -/
structure MultiDocumentResponse (α : Type) where
  data : List α
  next_token : Option String
deriving DecidableEq

/-- types.ts `DailySleepModel`. The fields not read by the health-summary
aggregation (`contributors`, `timestamp`) are omitted; `score` is the optional
0-100 daily score (`null`/absent ↦ `none`). -/
structure DailySleepModel where
  id : String
  day : String
  score : Option ℤ
deriving DecidableEq

/-- types.ts `DailyActivityModel`, restricted to the fields the health-summary
aggregation reads: the optional `score` and the (non-optional) daily `steps`
count. -/
structure DailyActivityModel where
  id : String
  day : String
  score : Option ℤ
  steps : ℤ
deriving DecidableEq

/-- types.ts `DailyStressModel`: optional high-stress and high-recovery second
counts and the optional day classification `day_summary?: DailyStressSummary |
null` (a string union in types.ts). The aggregation distinguishes a `null`
value from an absent key (JavaScript `undefined`), so the field is modelled
three-valued: `none` = key absent (`undefined`), `some none` = `null`,
`some (some l)` = the label `l`. The `stress_high`/`recovery_high` filters
test both `null` and `undefined`, so those fields stay two-valued. -/
structure DailyStressModel where
  id : String
  day : String
  stress_high : Option ℤ
  recovery_high : Option ℤ
  day_summary : Option (Option String)
deriving DecidableEq

/-- types.ts `DailyReadinessModel`, restricted to the fields the
health-summary aggregation reads. -/
structure DailyReadinessModel where
  id : String
  day : String
  score : Option ℤ
deriving DecidableEq

/-- The `{start_date, end_date}` pair threaded from the date-range selection
into the API query parameters (both `YYYY-MM-DD` strings). -/
structure DateRange where
  start_date : String
  end_date : String
deriving DecidableEq

/-- JavaScript's `Math.round` on an exact rational: round half up,
`⌊q + 1/2⌋`. Used in specification statements. -/
def jsRound (q : ℚ) : ℤ := ⌊q + 1/2⌋

/-- `Math.round(s / l)` for an integer numerator `s` and positive integer
denominator `l`, computed exactly in integer arithmetic:
`⌊s/l + 1/2⌋ = ⌊(2s+l)/(2l)⌋` (Lean's `Int` division rounds down for a
positive divisor). The embedded aggregation uses this form so that it is
kernel-computable; `jsRoundDiv_eq_jsRound` relates it to `jsRound`. -/
def jsRoundDiv (s : ℤ) (l : ℕ) : ℤ := (2 * s + l) / (2 * (l : ℤ))

/-- Insert en-US thousands separators into a reversed digit list (helper for
`toLocaleString`). -/
def insertCommasRev : List Char → List Char
  | a :: b :: c :: d :: rest => a :: b :: c :: ',' :: insertCommasRev (d :: rest)
  | l => l

/-- JavaScript's `Number.prototype.toLocaleString()` for an integer under the
en-US default locale used by the runtime: decimal digits grouped in threes by
commas (oura.ts:479/483 `avgSteps.toLocaleString()`). -/
def toLocaleString (n : ℤ) : String :=
  let grouped := String.mk (insertCommasRev (Nat.repr n.natAbs).data.reverse).reverse
  if n < 0 then "-" ++ grouped else grouped

/-- Sleep line of the composite report (oura.ts:459-470): on a fulfilled,
non-empty fetch, average the non-null scores (`Math.round`) and show the count
of all fetched records; record-less or rejected outcomes degrade to fixed
lines. -/
def sleepSection (sleepResponse : Settled (MultiDocumentResponse DailySleepModel)) : String :=
  match sleepResponse with
  | .fulfilled value =>
    if 0 < value.data.length then
      let validSleepData := value.data.filter (fun d => d.score.isSome)
      if 0 < validSleepData.length then
        let avgSleepScore := jsRoundDiv
          (validSleepData.foldl (fun sum d => sum + d.score.getD 0) 0) validSleepData.length
        "😴 **Sleep**: Average score " ++ toString avgSleepScore ++ "/100 ("
          ++ toString value.data.length ++ " days)\n"
      else
        "😴 **Sleep**: Data available but no scores calculated\n"
    else "😴 **Sleep**: No data available\n"
  | .rejected _ => "😴 **Sleep**: No data available\n"

/-- Activity line of the composite report (oura.ts:472-487): the score average
runs over score-bearing records only, while the average step count always runs
over the full record list; a score-less record list still reports steps with
the "(no scores available)" variant. -/
def activitySection (activityResponse : Settled (MultiDocumentResponse DailyActivityModel)) : String :=
  match activityResponse with
  | .fulfilled value =>
    if 0 < value.data.length then
      let validActivityData := value.data.filter (fun d => d.score.isSome)
      if 0 < validActivityData.length then
        let avgActivityScore := jsRoundDiv
          (validActivityData.foldl (fun sum d => sum + d.score.getD 0) 0) validActivityData.length
        let avgSteps := jsRoundDiv
          (value.data.foldl (fun sum d => sum + d.steps) 0) value.data.length
        "🏃 **Activity**: Average score " ++ toString avgActivityScore ++ "/100, "
          ++ toLocaleString avgSteps ++ " avg steps/day\n"
      else
        let avgSteps := jsRoundDiv
          (value.data.foldl (fun sum d => sum + d.steps) 0) value.data.length
        "🏃 **Activity**: " ++ toLocaleString avgSteps ++ " avg steps/day (no scores available)\n"
    else "🏃 **Activity**: No data available\n"
  | .rejected _ => "🏃 **Activity**: No data available\n"

/-- The most-common day summary (oura.ts:496-498):
`summaries.length > 0 ? summaries.sort((a, b) => count(a) - count(b)).pop() : null`.
`Array.prototype.sort` is stable (ES2019) and the comparator orders by
ascending occurrence count in `summaries`, so the result is the last element
of a stable merge sort by ascending count. The elements of `summaries` are the
`day_summary` values that survived the null-only filter, i.e. `undefined`
(`none`) or a label (`some l`); the outer `Option` of the result is the
ternary's `null` branch for an empty list. -/
def mostCommonSummary (summaries : List (Option String)) : Option (Option String) :=
  if 0 < summaries.length then
    (summaries.mergeSort (fun a b => decide (summaries.count a ≤ summaries.count b))).getLast?
  else none

/-- The interpolation `${mostCommonSummary || 'N/A'}` (oura.ts:499): JavaScript
replaces the falsy values — `null` (no summaries), a popped `undefined`
(absent `day_summary`), and the empty string — by `'N/A'`. -/
def stressLabelText (mostCommon : Option (Option String)) : String :=
  match mostCommon with
  | some (some l) => if l = "" then "N/A" else l
  | some none => "N/A"
  | none => "N/A"

/-- Stress line of the composite report (oura.ts:489-505): average the
non-null `stress_high` second counts, convert to minutes
(`Math.round(avg / 60)`, embedded exactly as `jsRoundDiv total (count * 60)`),
and show the most common `day_summary` value. The summaries list embeds
`stressData.map(d => d.day_summary).filter(s => s !== null)` (oura.ts:495):
only `null` is removed, so an absent field (`undefined`, modelled `none`)
survives into the frequency sort. -/
def stressSection (stressResponse : Settled (MultiDocumentResponse DailyStressModel)) : String :=
  match stressResponse with
  | .fulfilled value =>
    if 0 < value.data.length then
      let stressData := value.data
      let validStressData := stressData.filter (fun d => d.stress_high.isSome)
      if 0 < validStressData.length then
        let avgMinutes := jsRoundDiv
          (validStressData.foldl (fun sum d => sum + d.stress_high.getD 0) 0)
          (validStressData.length * 60)
        let summaries := (stressData.map (fun d => d.day_summary)).filterMap
          (fun s =>
            match s with
            | some none => none
            | none => some none
            | some (some l) => some (some l))
        "😰 **Stress**: " ++ toString avgMinutes ++ " avg minutes/day, mostly "
          ++ stressLabelText (mostCommonSummary summaries) ++ "\n"
      else "😰 **Stress**: Data available but no stress times calculated\n"
    else "😰 **Stress**: No data available\n"
  | .rejected _ => "😰 **Stress**: No data available\n"

/-- Readiness line of the composite report (oura.ts:507-518); identical
averaging rule to the sleep line. -/
def readinessSection (readinessResponse : Settled (MultiDocumentResponse DailyReadinessModel)) : String :=
  match readinessResponse with
  | .fulfilled value =>
    if 0 < value.data.length then
      let validReadinessData := value.data.filter (fun d => d.score.isSome)
      if 0 < validReadinessData.length then
        let avgReadinessScore := jsRoundDiv
          (validReadinessData.foldl (fun sum d => sum + d.score.getD 0) 0) validReadinessData.length
        "⚡ **Readiness**: Average score " ++ toString avgReadinessScore ++ "/100 ("
          ++ toString value.data.length ++ " days)\n"
      else "⚡ **Readiness**: Data available but no scores calculated\n"
    else "⚡ **Readiness**: No data available\n"
  | .rejected _ => "⚡ **Readiness**: No data available\n"

/-- `failedRequests.length > 0` (oura.ts:524-527): whether at least one of the
four settled fetches is rejected. -/
def anyFetchFailed (sleepResponse : Settled (MultiDocumentResponse DailySleepModel))
    (activityResponse : Settled (MultiDocumentResponse DailyActivityModel))
    (stressResponse : Settled (MultiDocumentResponse DailyStressModel))
    (readinessResponse : Settled (MultiDocumentResponse DailyReadinessModel)) : Bool :=
  0 < ([sleepResponse.isRejected, activityResponse.isRejected,
        stressResponse.isRejected, readinessResponse.isRejected].filter (fun b => b)).length

/-- `r.status === 'fulfilled' ? r.value.data.length : 0` (oura.ts:532-535). -/
def settledDataLength {α : Type} (r : Settled (MultiDocumentResponse α)) : ℕ :=
  match r with
  | .fulfilled value => value.data.length
  | .rejected _ => 0

/-- `totalDataPoints` (oura.ts:532-536): the record count summed over the
sleep, activity and readiness outcomes. The stress outcome is intentionally
not part of this sum. -/
def totalDataPoints (sleepResponse : Settled (MultiDocumentResponse DailySleepModel))
    (activityResponse : Settled (MultiDocumentResponse DailyActivityModel))
    (readinessResponse : Settled (MultiDocumentResponse DailyReadinessModel)) : ℕ :=
  [settledDataLength sleepResponse, settledDataLength activityResponse,
   settledDataLength readinessResponse].foldl (fun sum count => sum + count) 0

/-- The data-coverage insight line (oura.ts:538-544). -/
def coverageInsight (totalPoints : ℕ) : String :=
  if totalPoints = 0 then
    "• No data found - make sure to sync your Oura ring with the mobile app\n"
  else if totalPoints < 3 then
    "• Limited data available - consider syncing your ring more regularly\n"
  else
    "• Good data coverage - keep up the consistent tracking!\n"

/-- The composite health report assembled by `executeGetOuraHealthSummary`
from the four settled outcomes (oura.ts:456-546): header, period line, the
four category lines in fixed order, then the key-insight lines. -/
def aggregateHealthSummary (dateRange : DateRange)
    (sleepResponse : Settled (MultiDocumentResponse DailySleepModel))
    (activityResponse : Settled (MultiDocumentResponse DailyActivityModel))
    (stressResponse : Settled (MultiDocumentResponse DailyStressModel))
    (readinessResponse : Settled (MultiDocumentResponse DailyReadinessModel)) : String :=
  "📊 **Comprehensive Health Summary**\n\n"
    ++ ("📅 **Period**: " ++ dateRange.start_date ++ " to " ++ dateRange.end_date ++ "\n\n")
    ++ sleepSection sleepResponse
    ++ activitySection activityResponse
    ++ stressSection stressResponse
    ++ readinessSection readinessResponse
    ++ "\n💡 **Key Insights**:\n"
    ++ (if anyFetchFailed sleepResponse activityResponse stressResponse readinessResponse then
          "• Some data types may not be available for your account or ring model\n"
        else "")
    ++ coverageInsight (totalDataPoints sleepResponse activityResponse readinessResponse)

/-- A proleptic-Gregorian calendar date, used to model the host environment's
date construction in the period resolver. -/
structure CivilDate where
  year : ℕ
  month : ℕ
  day : ℕ
deriving DecidableEq

/-- Number of days in a Gregorian month. -/
def daysInMonth (year month : ℕ) : ℕ :=
  if month = 2 then
    if year % 4 = 0 ∧ (year % 100 ≠ 0 ∨ year % 400 = 0) then 29 else 28
  else if month = 4 ∨ month = 6 ∨ month = 9 ∨ month = 11 then 30
  else 31

/-- Well-formedness of a calendar date. -/
def CivilDate.Valid (d : CivilDate) : Prop :=
  1 ≤ d.month ∧ d.month ≤ 12 ∧ 1 ≤ d.day ∧ d.day ≤ daysInMonth d.year d.month

instance (d : CivilDate) : Decidable d.Valid := by
  unfold CivilDate.Valid
  infer_instance

/-- The calendar day before `d` (for valid `d` with a positive year). -/
def prevDay (d : CivilDate) : CivilDate :=
  if 1 < d.day then ⟨d.year, d.month, d.day - 1⟩
  else if 1 < d.month then ⟨d.year, d.month - 1, daysInMonth d.year (d.month - 1)⟩
  else ⟨d.year - 1, 12, 31⟩

/-- `d` minus `n` calendar days (JavaScript `date.setDate(date.getDate() - n)`
at day granularity). -/
def subDays (d : CivilDate) : ℕ → CivilDate
  | 0 => d
  | n + 1 => subDays (prevDay d) n

/-- The decimal digit character of `n mod 10`. -/
def decDigit (n : ℕ) : Char := Nat.digitChar (n % 10)

/-- `n` as a two-digit zero-padded decimal string (correct for `n ≤ 99`). -/
def pad2 (n : ℕ) : String := ⟨[decDigit (n / 10), decDigit n]⟩

/-- `n` as a four-digit zero-padded decimal string (correct for `n ≤ 9999`). -/
def pad4 (n : ℕ) : String :=
  ⟨[decDigit (n / 1000), decDigit (n / 100), decDigit (n / 10), decDigit n]⟩

/-- A date rendered as a `YYYY-MM-DD` string with no timezone component. -/
def formatDate (d : CivilDate) : String :=
  pad4 d.year ++ "-" ++ pad2 d.month ++ "-" ++ pad2 d.day

/-- Recogniser for the `YYYY-MM-DD` shape: exactly ten characters, decimal
digits except for dashes at positions 4 and 7. -/
def isYYYYMMDD (s : String) : Bool :=
  match s.data with
  | [y3, y2, y1, y0, h1, m1, m0, h2, d1, d0] =>
    y3.isDigit && y2.isDigit && y1.isDigit && y0.isDigit && (h1 == '-')
      && m1.isDigit && m0.isDigit && (h2 == '-') && d1.isDigit && d0.isDigit
  | _ => false

/-- Modelled from the spec: the period resolver `getDateRange` lives in
src/utils.ts, which is not included in the sources; spec §4.1 defines it as a
case-sensitive match on the period token relative to the current date:
`today` ↦ a single-day range, `yesterday` ↦ the previous day,
`week` ↦ the rolling 7-day window ending today, `month` ↦ the rolling 30-day
window ending today, and any other token falls back to the `week` range, so
resolution never fails. All dates are formatted `YYYY-MM-DD`. -/
def getDateRange (today : CivilDate) (period : String) : DateRange :=
  if period = "today" then ⟨formatDate today, formatDate today⟩
  else if period = "yesterday" then ⟨formatDate (subDays today 1), formatDate (subDays today 1)⟩
  else if period = "week" then ⟨formatDate (subDays today 6), formatDate today⟩
  else if period = "month" then ⟨formatDate (subDays today 29), formatDate today⟩
  else ⟨formatDate (subDays today 6), formatDate today⟩

/-- Linear key for the lexicographic order on calendar dates:
`416·year + 32·month + day` is strictly monotone in (year, month, day) for
months up to 12 and days up to 31. -/
def toOrd (d : CivilDate) : ℕ := 416 * d.year + 32 * d.month + d.day

/-- JavaScript truthiness of an optional string parameter: `undefined` and the
empty string are falsy. -/
def truthyString : Option String → Bool
  | some s => !(s == "")
  | none => false

/-- The date-range selection snippet `if (start_date && end_date) {...} else
{ getDateRange(period) }` that appears verbatim in all five execute functions
(oura.ts:270-277, 312-318, 353-359, 394-400, 434-441): the explicit bounds are
used only when both are supplied and non-empty, otherwise the period token is
resolved. -/
def resolveDateRange (today : CivilDate) (period : String)
    (start_date end_date : Option String) : DateRange :=
  if truthyString start_date && truthyString end_date then
    ⟨start_date.getD "", end_date.getD ""⟩
  else getDateRange today period

/-- Date-range selection step of `executeGetOuraSleepData` (oura.ts:270-277). -/
def sleepRequestRange (today : CivilDate) (period : String)
    (start_date end_date : Option String) : DateRange :=
  resolveDateRange today period start_date end_date

/-- Date-range selection step of `executeGetOuraActivityData` (oura.ts:312-318). -/
def activityRequestRange (today : CivilDate) (period : String)
    (start_date end_date : Option String) : DateRange :=
  resolveDateRange today period start_date end_date

/-- Date-range selection step of `executeGetOuraStressData` (oura.ts:353-359). -/
def stressRequestRange (today : CivilDate) (period : String)
    (start_date end_date : Option String) : DateRange :=
  resolveDateRange today period start_date end_date

/-- Date-range selection step of `executeGetOuraReadinessData` (oura.ts:394-400). -/
def readinessRequestRange (today : CivilDate) (period : String)
    (start_date end_date : Option String) : DateRange :=
  resolveDateRange today period start_date end_date

/-- The user-facing message of the `OuraAPIUserError` thrown by
`makeOuraRequest` when `OURA_API_TOKEN` is not configured (oura.ts:36-44). -/
def ouraSetupRequiredUserMessage : String :=
  "🔑 **Setup Required**: Please configure your Oura API token.\n\n"
    ++ "**Steps to fix:**\n"
    ++ "1. Get your token from [Oura Cloud](https://cloud.ouraring.com/personal-access-tokens)\n"
    ++ "2. Add it to your `.dev.vars` file as `OURA_API_TOKEN=your_token_here`\n"
    ++ "3. Restart the application\n\n"
    ++ "*This is a one-time setup step required to access your Oura Ring data.*"

/-- One call to `makeOuraRequest` as observed through `Promise.allSettled`
(oura.ts:33-45): with no configured token the promise rejects with the
token-configuration error before any network traffic; otherwise the settled
outcome is whatever the upstream interaction produced (`upstream`). -/
def makeOuraRequestSettled {α : Type} (ouraApiToken : Option String)
    (upstream : Settled α) : Settled α :=
  if truthyString ouraApiToken then upstream
  else .rejected "Oura API token not configured"

/-- `executeGetOuraHealthSummary` (oura.ts:425-554): resolve the date range,
settle the four parallel fetches, and aggregate. The four `upstream`
parameters abstract the network results of the four endpoint calls when a
token is configured. `Promise.allSettled` never rejects and the aggregation
step is total, so the catch branch that would return an error message is
unreachable and the function always returns the composite report. -/
def executeGetOuraHealthSummary (ouraApiToken : Option String) (today : CivilDate)
    (period : String) (start_date end_date : Option String)
    (sleepUpstream : Settled (MultiDocumentResponse DailySleepModel))
    (activityUpstream : Settled (MultiDocumentResponse DailyActivityModel))
    (stressUpstream : Settled (MultiDocumentResponse DailyStressModel))
    (readinessUpstream : Settled (MultiDocumentResponse DailyReadinessModel)) : String :=
  aggregateHealthSummary (resolveDateRange today period start_date end_date)
    (makeOuraRequestSettled ouraApiToken sleepUpstream)
    (makeOuraRequestSettled ouraApiToken activityUpstream)
    (makeOuraRequestSettled ouraApiToken stressUpstream)
    (makeOuraRequestSettled ouraApiToken readinessUpstream)

/-- The non-null scores of a sleep record list (specification side). -/
def sleepScores (records : List DailySleepModel) : List ℤ :=
  records.filterMap (fun d => d.score)

/-- The non-null scores of an activity record list (specification side). -/
def activityScores (records : List DailyActivityModel) : List ℤ :=
  records.filterMap (fun d => d.score)

/-- The non-null scores of a readiness record list (specification side). -/
def readinessScores (records : List DailyReadinessModel) : List ℤ :=
  records.filterMap (fun d => d.score)

/-- The non-null high-stress second counts of a stress record list
(specification side). -/
def stressHighs (records : List DailyStressModel) : List ℤ :=
  records.filterMap (fun d => d.stress_high)

/-- The `day_summary` values surviving the null-only filter
`stressData.map(d => d.day_summary).filter(s => s !== null)` (oura.ts:495), in
record order: a surviving element is `none` for an absent field (`undefined`
passes the `!== null` test) or `some l` for a label. -/
def stressSummaries (records : List DailyStressModel) : List (Option String) :=
  (records.map (fun d => d.day_summary)).filterMap
    (fun s =>
      match s with
      | some none => none
      | none => some none
      | some (some l) => some (some l))

/-- The non-null, non-absent day-classification labels of a stress record
list, in record order (specification side). -/
def stressLabels (records : List DailyStressModel) : List String :=
  records.filterMap
    (fun d =>
      match d.day_summary with
      | some (some l) => some l
      | _ => none)

/-- `t` occurs as a contiguous substring of `s`. -/
def OccursIn (t s : String) : Prop := ∃ a b, s = a ++ t ++ b

/-- The spec §8 example sleep records `[{score:80},{score:90},{score:null}]`. -/
def exampleSleepRecords : List DailySleepModel :=
  [⟨"", "", some 80⟩, ⟨"", "", some 90⟩, ⟨"", "", none⟩]

/-- The spec §8 example activity records `[{steps:1000},{steps:3000}]` with no
scores. -/
def exampleActivityRecords : List DailyActivityModel :=
  [⟨"", "", none, 1000⟩, ⟨"", "", none, 3000⟩]

/-- Stress records with day summaries `["normal","normal","stressful"]` (spec
§8) and average high-stress time `(3600+5400)/2 = 4500` seconds = 75 minutes. -/
def exampleStressRecords : List DailyStressModel :=
  [⟨"", "", some 3600, none, some (some "normal")⟩,
   ⟨"", "", some 5400, none, some (some "normal")⟩,
   ⟨"", "", none, none, some (some "stressful")⟩]

/-- Stress records with perfectly tied day summaries `["normal","stressful"]`
(spec §8). -/
def exampleTieStressRecords : List DailyStressModel :=
  [⟨"", "", some 600, none, some (some "normal")⟩,
   ⟨"", "", some 1200, none, some (some "stressful")⟩]

/-- Stress records whose day summaries are the label "normal" and an absent
(`undefined`) field: the null-only filter keeps the `undefined`, the counts
tie, the stable sort preserves order, and `.pop()` returns `undefined`, so
the report reads "mostly N/A" although "normal" is the only (hence single
most-frequent) non-null label. -/
def exampleAbsentStressRecords : List DailyStressModel :=
  [⟨"", "", some 3600, none, some (some "normal")⟩,
   ⟨"", "", some 3600, none, none⟩]

/-- Readiness records with scores 70 and 90 (average 80 over 2 days). -/
def exampleReadinessRecords : List DailyReadinessModel :=
  [⟨"", "", some 70⟩, ⟨"", "", some 90⟩]

/-- Summing the defaulted values over the `isSome` filter computes the sum of
`filterMap`. -/
theorem filter_foldl_getD {α : Type} (f : α → Option ℤ) (l : List α) (init : ℤ) :
    (l.filter (fun d => (f d).isSome)).foldl (fun sum d => sum + (f d).getD 0) init
      = init + (l.filterMap f).sum := by
  induction l generalizing init with
  | nil => simp
  | cons a l ih =>
    cases h : f a with
    | none => simp [List.filter_cons, List.filterMap_cons, h, ih]
    | some v =>
      simp [List.filter_cons, List.filterMap_cons, h, ih]
      ring

/-- The `isSome` filter and `filterMap` have the same length. -/
theorem filter_isSome_length {α : Type} (f : α → Option ℤ) (l : List α) :
    (l.filter (fun d => (f d).isSome)).length = (l.filterMap f).length := by
  induction l with
  | nil => rfl
  | cons a l ih =>
    cases h : f a <;> simp [List.filter_cons, List.filterMap_cons, h, ih]

/-- Folding the step counts computes the sum of the step values. -/
theorem steps_foldl (l : List DailyActivityModel) (init : ℤ) :
    l.foldl (fun sum d => sum + d.steps) init = init + (l.map (fun d => d.steps)).sum := by
  induction l generalizing init with
  | nil => simp
  | cons a l ih => simp [ih]; ring

/-- `jsRoundDiv` computes the rounded rational mean. -/
theorem jsRoundDiv_eq_jsRound (s : ℤ) (l : ℕ) (h : 0 < l) :
    jsRoundDiv s l = jsRound ((s : ℚ) / (l : ℚ)) := by
  have hb : ((l : ℚ)) ≠ 0 := by positivity
  have hq : ((s : ℚ) / (l : ℚ) + 1/2) = ((2 * s + l : ℤ) : ℚ) / ((2 * l : ℕ) : ℚ) := by
    push_cast
    field_simp
    ring
  unfold jsRound jsRoundDiv
  rw [hq, Rat.floor_intCast_div_natCast]
  push_cast
  ring_nf

/-- `jsRoundDiv` with denominator `l * 60` computes the rounded mean further
divided by 60. -/
theorem jsRoundDiv_sixty_eq_jsRound (s : ℤ) (l : ℕ) (h : 0 < l) :
    jsRoundDiv s (l * 60) = jsRound ((s : ℚ) / (l : ℚ) / 60) := by
  rw [jsRoundDiv_eq_jsRound s (l * 60) (by positivity)]
  congr 1
  push_cast
  rw [div_div]


/-- Claim C2: for a fulfilled, non-empty sleep fetch the sleep line reports the
rounded arithmetic mean of the non-null scores together with the count of all
fetched records; score-less record lists give the "Data available but no
scores calculated" variant; a failed fetch or zero records give "No data
available"; the identical rule applies to the readiness line; the spec's
example records `[{score:80},{score:90},{score:null}]` produce average 85 over
3 days. -/
theorem sleep_readiness_average_spec (records : List DailySleepModel)
    (rrecords : List DailyReadinessModel) (nt nt' : Option String) :
    (sleepScores records ≠ [] →
      sleepSection (Settled.fulfilled ⟨records, nt⟩)
        = "😴 **Sleep**: Average score "
          ++ toString (jsRound (((sleepScores records).sum : ℚ) / ((sleepScores records).length : ℚ)))
          ++ "/100 (" ++ toString records.length ++ " days)\n")
  ∧ (records ≠ [] → sleepScores records = [] →
      sleepSection (Settled.fulfilled ⟨records, nt⟩)
        = "😴 **Sleep**: Data available but no scores calculated\n")
  ∧ sleepSection (Settled.fulfilled ⟨[], nt⟩) = "😴 **Sleep**: No data available\n"
  ∧ (∀ reason, sleepSection (Settled.rejected reason) = "😴 **Sleep**: No data available\n")
  ∧ (readinessScores rrecords ≠ [] →
      readinessSection (Settled.fulfilled ⟨rrecords, nt'⟩)
        = "⚡ **Readiness**: Average score "
          ++ toString (jsRound (((readinessScores rrecords).sum : ℚ) / ((readinessScores rrecords).length : ℚ)))
          ++ "/100 (" ++ toString rrecords.length ++ " days)\n")
  ∧ (rrecords ≠ [] → readinessScores rrecords = [] →
      readinessSection (Settled.fulfilled ⟨rrecords, nt'⟩)
        = "⚡ **Readiness**: Data available but no scores calculated\n")
  ∧ readinessSection (Settled.fulfilled ⟨[], nt'⟩) = "⚡ **Readiness**: No data available\n"
  ∧ (∀ reason, readinessSection (Settled.rejected reason) = "⚡ **Readiness**: No data available\n")
  ∧ sleepSection (Settled.fulfilled ⟨exampleSleepRecords, none⟩)
      = "😴 **Sleep**: Average score 85/100 (3 days)\n" := by
  refine ⟨?_, ?_, rfl, fun reason => rfl, ?_, ?_, rfl, fun reason => rfl, by decide⟩
  · intro h
    have hrec : records ≠ [] := by
      intro he
      subst he
      simp [sleepScores] at h
    have hlen : 0 < (records.filter (fun d => d.score.isSome)).length := by
      rw [filter_isSome_length (fun d => d.score) records]
      exact List.length_pos.mpr (by simpa [sleepScores] using h)
    simp only [sleepSection]
    rw [if_pos (List.length_pos.mpr hrec), if_pos hlen]
    congr 2
    rw [filter_foldl_getD (fun d => d.score) records 0, zero_add,
      filter_isSome_length (fun d => d.score) records,
      jsRoundDiv_eq_jsRound _ _ (by rw [← filter_isSome_length (fun d => d.score) records]; exact hlen)]
    rfl
  · intro hrec h
    have hlen : ¬ 0 < (records.filter (fun d => d.score.isSome)).length := by
      rw [filter_isSome_length (fun d => d.score) records]
      show ¬ 0 < (sleepScores records).length
      rw [h]
      simp
    simp only [sleepSection]
    rw [if_pos (List.length_pos.mpr hrec), if_neg hlen]
  · intro h
    have hrec : rrecords ≠ [] := by
      intro he
      subst he
      simp [readinessScores] at h
    have hlen : 0 < (rrecords.filter (fun d => d.score.isSome)).length := by
      rw [filter_isSome_length (fun d => d.score) rrecords]
      exact List.length_pos.mpr (by simpa [readinessScores] using h)
    simp only [readinessSection]
    rw [if_pos (List.length_pos.mpr hrec), if_pos hlen]
    congr 2
    rw [filter_foldl_getD (fun d => d.score) rrecords 0, zero_add,
      filter_isSome_length (fun d => d.score) rrecords,
      jsRoundDiv_eq_jsRound _ _ (by rw [← filter_isSome_length (fun d => d.score) rrecords]; exact hlen)]
    rfl
  · intro hrec h
    have hlen : ¬ 0 < (rrecords.filter (fun d => d.score.isSome)).length := by
      rw [filter_isSome_length (fun d => d.score) rrecords]
      show ¬ 0 < (readinessScores rrecords).length
      rw [h]
      simp
    simp only [readinessSection]
    rw [if_pos (List.length_pos.mpr hrec), if_neg hlen]

/-- Claim C2 witness at the spec's concrete example records. -/
theorem sleep_readiness_average_spec_witness :
    sleepScores exampleSleepRecords ≠ []
  ∧ readinessScores exampleReadinessRecords ≠ []
  ∧ sleepSection (Settled.fulfilled ⟨exampleSleepRecords, none⟩)
      = "😴 **Sleep**: Average score "
        ++ toString (jsRound (((sleepScores exampleSleepRecords).sum : ℚ) / ((sleepScores exampleSleepRecords).length : ℚ)))
        ++ "/100 (" ++ toString exampleSleepRecords.length ++ " days)\n"
  ∧ readinessSection (Settled.fulfilled ⟨exampleReadinessRecords, none⟩)
      = "⚡ **Readiness**: Average score "
        ++ toString (jsRound (((readinessScores exampleReadinessRecords).sum : ℚ) / ((readinessScores exampleReadinessRecords).length : ℚ)))
        ++ "/100 (" ++ toString exampleReadinessRecords.length ++ " days)\n" :=
  ⟨by decide, by decide,
    (sleep_readiness_average_spec exampleSleepRecords exampleReadinessRecords none none).1
      (by decide),
    (sleep_readiness_average_spec exampleSleepRecords exampleReadinessRecords none none).2.2.2.2.1
      (by decide)⟩

/-- Claim C5: for a fulfilled, non-empty activity fetch the reported average
daily step count is the rounded mean of the step counts over the full record
list, regardless of score presence; when no record has a score the activity
line still reports the average steps with the "(no scores available)" variant;
the spec's example records `[{steps:1000},{steps:3000}]` with no scores report
2,000 average steps. -/
theorem activity_steps_spec (records : List DailyActivityModel) (nt : Option String) :
    (activityScores records ≠ [] →
      activitySection (Settled.fulfilled ⟨records, nt⟩)
        = "🏃 **Activity**: Average score "
          ++ toString (jsRound (((activityScores records).sum : ℚ) / ((activityScores records).length : ℚ)))
          ++ "/100, "
          ++ toLocaleString (jsRound ((((records.map (fun d => d.steps)).sum : ℤ) : ℚ) / (records.length : ℚ)))
          ++ " avg steps/day\n")
  ∧ (records ≠ [] → activityScores records = [] →
      activitySection (Settled.fulfilled ⟨records, nt⟩)
        = "🏃 **Activity**: "
          ++ toLocaleString (jsRound ((((records.map (fun d => d.steps)).sum : ℤ) : ℚ) / (records.length : ℚ)))
          ++ " avg steps/day (no scores available)\n")
  ∧ activitySection (Settled.fulfilled ⟨exampleActivityRecords, none⟩)
      = "🏃 **Activity**: 2,000 avg steps/day (no scores available)\n" := by
  refine ⟨?_, ?_, by decide⟩
  · intro h
    have hrec : records ≠ [] := by
      intro he
      subst he
      simp [activityScores] at h
    have hlen : 0 < (records.filter (fun d => d.score.isSome)).length := by
      rw [filter_isSome_length (fun d => d.score) records]
      exact List.length_pos.mpr (by simpa [activityScores] using h)
    simp only [activitySection]
    rw [if_pos (List.length_pos.mpr hrec), if_pos hlen]
    rw [filter_foldl_getD (fun d => d.score) records 0, zero_add,
      filter_isSome_length (fun d => d.score) records,
      jsRoundDiv_eq_jsRound _ _ (by rw [← filter_isSome_length (fun d => d.score) records]; exact hlen),
      steps_foldl records 0, zero_add,
      jsRoundDiv_eq_jsRound _ _ (List.length_pos.mpr hrec)]
    rfl
  · intro hrec h
    have hlen : ¬ 0 < (records.filter (fun d => d.score.isSome)).length := by
      rw [filter_isSome_length (fun d => d.score) records]
      show ¬ 0 < (activityScores records).length
      rw [h]
      simp
    simp only [activitySection]
    rw [if_pos (List.length_pos.mpr hrec), if_neg hlen]
    rw [steps_foldl records 0, zero_add,
      jsRoundDiv_eq_jsRound _ _ (List.length_pos.mpr hrec)]

/-- Claim C5 witness at the spec's concrete example records. -/
theorem activity_steps_spec_witness :
    exampleActivityRecords ≠ []
  ∧ activityScores exampleActivityRecords = []
  ∧ activitySection (Settled.fulfilled ⟨exampleActivityRecords, none⟩)
      = "🏃 **Activity**: "
        ++ toLocaleString (jsRound ((((exampleActivityRecords.map (fun d => d.steps)).sum : ℤ) : ℚ) / (exampleActivityRecords.length : ℚ)))
        ++ " avg steps/day (no scores available)\n" :=
  ⟨by decide, by decide,
    (activity_steps_spec exampleActivityRecords none).2.1 (by decide) (by decide)⟩

/-- Claim C6: for a fulfilled, non-empty stress fetch with at least one
non-null high-stress duration, the reported stress time is the mean of the
non-null durations divided by 60 and rounded (minutes); duration-less record
lists give the "Data available but no stress times calculated" variant; a
failed fetch or zero records give "No data available". -/
theorem stress_time_spec (records : List DailyStressModel) (nt : Option String) :
    (stressHighs records ≠ [] →
      stressSection (Settled.fulfilled ⟨records, nt⟩)
        = "😰 **Stress**: "
          ++ toString (jsRound (((stressHighs records).sum : ℚ) / ((stressHighs records).length : ℚ) / 60))
          ++ " avg minutes/day, mostly "
          ++ stressLabelText (mostCommonSummary (stressSummaries records)) ++ "\n")
  ∧ (records ≠ [] → stressHighs records = [] →
      stressSection (Settled.fulfilled ⟨records, nt⟩)
        = "😰 **Stress**: Data available but no stress times calculated\n")
  ∧ stressSection (Settled.fulfilled ⟨[], nt⟩) = "😰 **Stress**: No data available\n"
  ∧ (∀ reason, stressSection (Settled.rejected reason) = "😰 **Stress**: No data available\n")
  ∧ stressSection (Settled.fulfilled ⟨exampleStressRecords, none⟩)
      = "😰 **Stress**: 75 avg minutes/day, mostly normal\n" := by
  refine ⟨?_, ?_, rfl, fun reason => rfl, ?_⟩
  · intro h
    have hrec : records ≠ [] := by
      intro he
      subst he
      simp [stressHighs] at h
    have hlen : 0 < (records.filter (fun d => d.stress_high.isSome)).length := by
      rw [filter_isSome_length (fun d => d.stress_high) records]
      exact List.length_pos.mpr (by simpa [stressHighs] using h)
    simp only [stressSection]
    rw [if_pos (List.length_pos.mpr hrec), if_pos hlen]
    rw [filter_foldl_getD (fun d => d.stress_high) records 0, zero_add,
      filter_isSome_length (fun d => d.stress_high) records,
      jsRoundDiv_sixty_eq_jsRound _ _ (by rw [← filter_isSome_length (fun d => d.stress_high) records]; exact hlen)]
    rfl
  · intro hrec h
    have hlen : ¬ 0 < (records.filter (fun d => d.stress_high.isSome)).length := by
      rw [filter_isSome_length (fun d => d.stress_high) records]
      show ¬ 0 < (stressHighs records).length
      rw [h]
      simp
    simp only [stressSection]
    rw [if_pos (List.length_pos.mpr hrec), if_neg hlen]
  · simp [stressSection, mostCommonSummary, stressLabelText, exampleStressRecords,
      List.mergeSort, List.merge, jsRoundDiv]
    rfl

/-- Claim C6 witness at the concrete example stress records. -/
theorem stress_time_spec_witness :
    stressHighs exampleStressRecords ≠ []
  ∧ stressSection (Settled.fulfilled ⟨exampleStressRecords, none⟩)
      = "😰 **Stress**: "
        ++ toString (jsRound (((stressHighs exampleStressRecords).sum : ℚ) / ((stressHighs exampleStressRecords).length : ℚ) / 60))
        ++ " avg minutes/day, mostly "
        ++ stressLabelText (mostCommonSummary (stressSummaries exampleStressRecords)) ++ "\n" :=
  ⟨by decide, (stress_time_spec exampleStressRecords none).1 (by decide)⟩

/-- In a `Pairwise R` list, every element is the last element or is related to
it. -/
theorem pairwise_rel_getLast {α : Type} {R : α → α → Prop} :
    ∀ (l : List α) (hne : l ≠ []), l.Pairwise R →
      ∀ x ∈ l, x = l.getLast hne ∨ R x (l.getLast hne)
  | [], hne, _, _, _ => absurd rfl hne
  | [a], _, _, x, hx => by
    simp at hx
    subst hx
    left
    rfl
  | a :: b :: t, hne, hp, x, hx => by
    have hbt : b :: t ≠ [] := by simp
    rw [List.getLast_cons hbt]
    rcases List.mem_cons.mp hx with hxa | hxbt
    · subst hxa
      right
      exact (List.pairwise_cons.mp hp).1 _ (List.getLast_mem hbt)
    · exact pairwise_rel_getLast (b :: t) hbt (List.pairwise_cons.mp hp).2 x hxbt

/-- The last element of the count-ascending stable sort realises the maximum
occurrence count: `mostCommonSummary` returns a most-frequent element of the
filtered summaries list. -/
theorem mostCommonSummary_max (summaries : List (Option String)) (h : summaries ≠ []) :
    ∃ m, mostCommonSummary summaries = some m ∧ m ∈ summaries ∧
      ∀ v ∈ summaries, summaries.count v ≤ summaries.count m := by
  have hperm := List.mergeSort_perm summaries
    (fun a b => decide (summaries.count a ≤ summaries.count b))
  have hsne : summaries.mergeSort (fun a b => decide (summaries.count a ≤ summaries.count b)) ≠ [] := by
    intro he
    exact h (List.Perm.eq_nil (he ▸ hperm).symm)
  have hsorted : (summaries.mergeSort (fun a b => decide (summaries.count a ≤ summaries.count b))).Pairwise
      (fun a b => (fun a b => decide (summaries.count a ≤ summaries.count b)) a b = true) := by
    apply List.sorted_mergeSort
    · intro a b c hab hbc
      simp only [decide_eq_true_eq] at *
      omega
    · intro a b
      simp only [Bool.or_eq_true, decide_eq_true_eq]
      omega
  refine ⟨(summaries.mergeSort (fun a b => decide (summaries.count a ≤ summaries.count b))).getLast hsne,
    ?_, ?_, ?_⟩
  · unfold mostCommonSummary
    rw [if_pos (List.length_pos.mpr h), List.getLast?_eq_getLast _ hsne]
  · exact List.mem_mergeSort.mp (List.getLast_mem hsne)
  · intro v hv
    rcases pairwise_rel_getLast _ hsne hsorted v (List.mem_mergeSort.mpr hv) with he | hr
    · rw [he]
    · simpa using hr

/-- Counting a wrapped label in a `some`-mapped list counts the label. -/
theorem count_map_some (L : List String) (x : String) :
    (L.map some).count (some x) = L.count x := by
  induction L with
  | nil => rfl
  | cons a t ih => simp [List.count_cons, ih]

/-- When no record has an absent `day_summary`, the filtered summaries are
exactly the non-null labels. -/
theorem stressSummaries_eq_map (records : List DailyStressModel)
    (habs : none ∉ stressSummaries records) :
    stressSummaries records = (stressLabels records).map some := by
  induction records with
  | nil => rfl
  | cons a t ih =>
    cases ha : a.day_summary with
    | none =>
      have hmem : none ∈ stressSummaries (a :: t) := by
        simp [stressSummaries, List.filterMap_cons, ha]
      exact absurd hmem habs
    | some v =>
      cases v with
      | none =>
        have hcons : stressSummaries (a :: t) = stressSummaries t := by
          simp [stressSummaries, List.filterMap_cons, ha]
        have hcons2 : stressLabels (a :: t) = stressLabels t := by
          simp [stressLabels, List.filterMap_cons, ha]
        rw [hcons] at habs
        rw [hcons, hcons2, ih habs]
      | some l =>
        have hcons : stressSummaries (a :: t) = some l :: stressSummaries t := by
          simp [stressSummaries, List.filterMap_cons, ha]
        have hcons2 : stressLabels (a :: t) = l :: stressLabels t := by
          simp [stressLabels, List.filterMap_cons, ha]
        rw [hcons] at habs
        simp only [List.mem_cons] at habs
        rw [hcons, hcons2, List.map_cons, ih (fun hc => habs (Or.inr hc))]

/-- Claim C4 (amended): on a fulfilled, non-empty stress fetch with at least
one non-null high-stress duration, the "mostly" value is the last element of
the stable sort, ascending by occurrence count, of the `day_summary` values
surviving the null-only filter — a pool in which an absent (`undefined`)
field also survives and renders as "N/A" when popped — and that value always
realises the maximal occurrence count in the pool. When no record's
`day_summary` is absent, it is the single most-frequent non-null label, ties
resolved to the last element of the frequency-ascending stable sort; the
spec's example `["normal","normal","stressful"]` resolves to "normal" and the
perfect tie `["normal","stressful"]` deterministically resolves to
"stressful" (the tie label occurring last). -/
theorem stress_label_spec (records : List DailyStressModel) (nt : Option String) :
    (stressHighs records ≠ [] → stressSummaries records ≠ [] →
      ∃ v, mostCommonSummary (stressSummaries records) = some v
        ∧ v ∈ stressSummaries records
        ∧ (∀ w ∈ stressSummaries records,
            (stressSummaries records).count w ≤ (stressSummaries records).count v)
        ∧ ((stressSummaries records).mergeSort
            (fun a b => decide ((stressSummaries records).count a ≤ (stressSummaries records).count b))).getLast?
            = some v
        ∧ stressSection (Settled.fulfilled ⟨records, nt⟩)
            = "😰 **Stress**: "
              ++ toString (jsRound (((stressHighs records).sum : ℚ) / ((stressHighs records).length : ℚ) / 60))
              ++ " avg minutes/day, mostly " ++ stressLabelText (some v) ++ "\n"
        ∧ (none ∉ stressSummaries records → "" ∉ stressLabels records →
            ∃ l, v = some l ∧ stressLabelText (some v) = l
              ∧ (∀ w ∈ stressLabels records,
                  (stressLabels records).count w ≤ (stressLabels records).count l)))
  ∧ mostCommonSummary [some "normal", some "normal", some "stressful"] = some (some "normal")
  ∧ mostCommonSummary [some "normal", some "stressful"] = some (some "stressful") := by
  refine ⟨?_, ?_, ?_⟩
  · intro hdur hsum
    obtain ⟨v, hmc, hmem, hmax⟩ := mostCommonSummary_max (stressSummaries records) hsum
    refine ⟨v, hmc, hmem, hmax, ?_, ?_, ?_⟩
    · have := hmc
      unfold mostCommonSummary at this
      rw [if_pos (List.length_pos.mpr hsum)] at this
      exact this
    · have hlabel : stressLabelText (mostCommonSummary (stressSummaries records))
          = stressLabelText (some v) := by
        rw [hmc]
      rw [← hlabel]
      exact (stress_time_spec records nt).1 hdur
    · intro habs hemp
      obtain ⟨l, rfl⟩ : ∃ l, v = some l := by
        cases v with
        | none => exact absurd hmem habs
        | some l => exact ⟨l, rfl⟩
      have hmap := stressSummaries_eq_map records habs
      have hlmem : l ∈ stressLabels records := by
        rw [hmap] at hmem
        simpa using hmem
      have hl : l ≠ "" := fun he => hemp (he ▸ hlmem)
      refine ⟨l, rfl, by simp [stressLabelText, hl], ?_⟩
      intro w hw
      have hw2 : some w ∈ stressSummaries records := by
        rw [hmap]
        exact List.mem_map_of_mem _ hw
      have hcnt := hmax (some w) hw2
      rw [hmap, count_map_some (stressLabels records) w,
        count_map_some (stressLabels records) l] at hcnt
      exact hcnt
  · simp [mostCommonSummary, List.mergeSort, List.merge]
  · simp [mostCommonSummary, List.mergeSort, List.merge]

/-- Claim C4 witness at the concrete example stress records, including the
perfect-tie case. -/
theorem stress_label_spec_witness :
    stressHighs exampleStressRecords ≠ []
  ∧ stressSummaries exampleStressRecords ≠ []
  ∧ (∃ v, mostCommonSummary (stressSummaries exampleStressRecords) = some v
      ∧ v ∈ stressSummaries exampleStressRecords
      ∧ (∀ w ∈ stressSummaries exampleStressRecords,
          (stressSummaries exampleStressRecords).count w ≤ (stressSummaries exampleStressRecords).count v)
      ∧ ((stressSummaries exampleStressRecords).mergeSort
          (fun a b => decide ((stressSummaries exampleStressRecords).count a ≤ (stressSummaries exampleStressRecords).count b))).getLast?
          = some v
      ∧ stressSection (Settled.fulfilled ⟨exampleStressRecords, none⟩)
          = "😰 **Stress**: "
            ++ toString (jsRound (((stressHighs exampleStressRecords).sum : ℚ) / ((stressHighs exampleStressRecords).length : ℚ) / 60))
            ++ " avg minutes/day, mostly " ++ stressLabelText (some v) ++ "\n"
      ∧ (none ∉ stressSummaries exampleStressRecords → "" ∉ stressLabels exampleStressRecords →
          ∃ l, v = some l ∧ stressLabelText (some v) = l
            ∧ (∀ w ∈ stressLabels exampleStressRecords,
                (stressLabels exampleStressRecords).count w ≤ (stressLabels exampleStressRecords).count l)))
  ∧ mostCommonSummary [some "normal", some "stressful"] = some (some "stressful") :=
  ⟨by decide, by decide,
    (stress_label_spec exampleStressRecords none).1 (by decide) (by decide),
    (stress_label_spec exampleStressRecords none).2.2⟩

/-- Claim C4 counterexample: for stress records whose day summaries are
"normal" and one absent field, the single most-frequent non-null label is
"normal", yet the program (oura.ts:495 filters only `null`, so the absent
value survives the sort, ties last, and is popped) reports "mostly N/A". -/
theorem stress_label_spec_counterexample :
    stressLabels exampleAbsentStressRecords = ["normal"]
  ∧ stressSection (Settled.fulfilled ⟨exampleAbsentStressRecords, none⟩)
      = "😰 **Stress**: 60 avg minutes/day, mostly N/A\n"
  ∧ stressSection (Settled.fulfilled ⟨exampleAbsentStressRecords, none⟩)
      ≠ "😰 **Stress**: 60 avg minutes/day, mostly normal\n" := by
  have h : stressSection (Settled.fulfilled ⟨exampleAbsentStressRecords, none⟩)
      = "😰 **Stress**: 60 avg minutes/day, mostly N/A\n" := by
    simp [stressSection, mostCommonSummary, stressLabelText, exampleAbsentStressRecords,
      List.mergeSort, List.merge, jsRoundDiv]
    rfl
  refine ⟨by decide, h, ?_⟩
  rw [h]
  decide

/-- A string occurs in itself followed by anything. -/
theorem occursIn_head (t u : String) : OccursIn t (t ++ u) :=
  ⟨"", u, by rw [String.append_assoc]; rfl⟩

/-- Occurrence is preserved by appending on the left. -/
theorem occursIn_append_right (u : String) {t s : String} (h : OccursIn t s) :
    OccursIn t (u ++ s) := by
  obtain ⟨a, b, rfl⟩ := h
  exact ⟨u ++ a, b, by simp [String.append_assoc]⟩

/-- Occurrence is preserved by appending on the right. -/
theorem occursIn_append_left (u : String) {t s : String} (h : OccursIn t s) :
    OccursIn t (s ++ u) := by
  obtain ⟨a, b, rfl⟩ := h
  exact ⟨a, b ++ u, by simp [String.append_assoc]⟩

/-- The degraded report produced when all four fetches reject, as one
right-associated concatenation. -/
theorem aggregate_all_rejected (dateRange : DateRange) (rs ra rst rr : String) :
    aggregateHealthSummary dateRange (Settled.rejected rs) (Settled.rejected ra)
      (Settled.rejected rst) (Settled.rejected rr)
      = "📊 **Comprehensive Health Summary**\n\n"
        ++ ("📅 **Period**: " ++ (dateRange.start_date ++ (" to " ++ (dateRange.end_date ++ ("\n\n"
        ++ ("😴 **Sleep**: No data available\n"
        ++ ("🏃 **Activity**: No data available\n"
        ++ ("😰 **Stress**: No data available\n"
        ++ ("⚡ **Readiness**: No data available\n"
        ++ ("\n💡 **Key Insights**:\n"
        ++ ("• Some data types may not be available for your account or ring model\n"
        ++ "• No data found - make sure to sync your Oura ring with the mobile app\n"))))))))))) := by
  have hfail : anyFetchFailed (Settled.rejected rs) (Settled.rejected ra)
      (Settled.rejected rst) (Settled.rejected rr) = true := rfl
  simp only [aggregateHealthSummary, hfail, if_true, sleepSection, activitySection,
    stressSection, readinessSection, String.append_assoc]
  rfl


/-- The degraded all-rejected report carries the four "No data available"
lines and both insight lines. -/
theorem aggregate_all_rejected_occurs (dateRange : DateRange) (rs ra rst rr : String) :
    OccursIn "😴 **Sleep**: No data available\n"
      (aggregateHealthSummary dateRange (Settled.rejected rs) (Settled.rejected ra)
        (Settled.rejected rst) (Settled.rejected rr))
  ∧ OccursIn "🏃 **Activity**: No data available\n"
      (aggregateHealthSummary dateRange (Settled.rejected rs) (Settled.rejected ra)
        (Settled.rejected rst) (Settled.rejected rr))
  ∧ OccursIn "😰 **Stress**: No data available\n"
      (aggregateHealthSummary dateRange (Settled.rejected rs) (Settled.rejected ra)
        (Settled.rejected rst) (Settled.rejected rr))
  ∧ OccursIn "⚡ **Readiness**: No data available\n"
      (aggregateHealthSummary dateRange (Settled.rejected rs) (Settled.rejected ra)
        (Settled.rejected rst) (Settled.rejected rr))
  ∧ OccursIn "• Some data types may not be available for your account or ring model\n"
      (aggregateHealthSummary dateRange (Settled.rejected rs) (Settled.rejected ra)
        (Settled.rejected rst) (Settled.rejected rr))
  ∧ OccursIn "• No data found - make sure to sync your Oura ring with the mobile app\n"
      (aggregateHealthSummary dateRange (Settled.rejected rs) (Settled.rejected ra)
        (Settled.rejected rst) (Settled.rejected rr)) := by
  rw [aggregate_all_rejected dateRange rs ra rst rr]
  refine ⟨?_, ?_, ?_, ?_, ?_, ?_⟩
  · exact occursIn_append_right _ (occursIn_append_right _ (occursIn_append_right _
      (occursIn_append_right _ (occursIn_append_right _ (occursIn_append_right _
      (occursIn_head _ _))))))
  · exact occursIn_append_right _ (occursIn_append_right _ (occursIn_append_right _
      (occursIn_append_right _ (occursIn_append_right _ (occursIn_append_right _
      (occursIn_append_right _ (occursIn_head _ _)))))))
  · exact occursIn_append_right _ (occursIn_append_right _ (occursIn_append_right _
      (occursIn_append_right _ (occursIn_append_right _ (occursIn_append_right _
      (occursIn_append_right _ (occursIn_append_right _ (occursIn_head _ _))))))))
  · exact occursIn_append_right _ (occursIn_append_right _ (occursIn_append_right _
      (occursIn_append_right _ (occursIn_append_right _ (occursIn_append_right _
      (occursIn_append_right _ (occursIn_append_right _ (occursIn_append_right _
      (occursIn_head _ _)))))))))
  · exact occursIn_append_right _ (occursIn_append_right _ (occursIn_append_right _
      (occursIn_append_right _ (occursIn_append_right _ (occursIn_append_right _
      (occursIn_append_right _ (occursIn_append_right _ (occursIn_append_right _
      (occursIn_append_right _ (occursIn_append_right _ (occursIn_head _ _)))))))))))
  · refine occursIn_append_right _ (occursIn_append_right _ (occursIn_append_right _
      (occursIn_append_right _ (occursIn_append_right _ (occursIn_append_right _
      (occursIn_append_right _ (occursIn_append_right _ (occursIn_append_right _
      (occursIn_append_right _ (occursIn_append_right _ (occursIn_append_right _ ?_)))))))))))
    exact ⟨"", "", by simp⟩

/-- Every composite report starts with the report header, so it is never the
setup-required message. -/
theorem aggregate_ne_setup (dateRange : DateRange)
    (s : Settled (MultiDocumentResponse DailySleepModel))
    (a : Settled (MultiDocumentResponse DailyActivityModel))
    (st : Settled (MultiDocumentResponse DailyStressModel))
    (r : Settled (MultiDocumentResponse DailyReadinessModel)) :
    aggregateHealthSummary dateRange s a st r ≠ ouraSetupRequiredUserMessage := by
  intro h
  have hd := congrArg (fun str => str.data.head?) h
  simp only at hd
  have h1 : (aggregateHealthSummary dateRange s a st r).data.head? = some '📊' := rfl
  have h2 : ouraSetupRequiredUserMessage.data.head? = some '🔑' := rfl
  rw [h1, h2] at hd
  exact absurd hd (by decide)

/-- Claim C1: the aggregation is total — for every combination of the four
settled outcomes it produces the composite report (it always starts with the
report header), and when all four fetches reject, the report carries the four
"No data available" category lines and the "No data found" insight. -/
theorem health_summary_never_fails_spec (dateRange : DateRange)
    (s : Settled (MultiDocumentResponse DailySleepModel))
    (a : Settled (MultiDocumentResponse DailyActivityModel))
    (st : Settled (MultiDocumentResponse DailyStressModel))
    (r : Settled (MultiDocumentResponse DailyReadinessModel)) :
    (∃ rest, aggregateHealthSummary dateRange s a st r
        = "📊 **Comprehensive Health Summary**\n\n" ++ rest)
  ∧ (∀ rs ra rst rr,
      OccursIn "😴 **Sleep**: No data available\n"
        (aggregateHealthSummary dateRange (Settled.rejected rs) (Settled.rejected ra)
          (Settled.rejected rst) (Settled.rejected rr))
    ∧ OccursIn "🏃 **Activity**: No data available\n"
        (aggregateHealthSummary dateRange (Settled.rejected rs) (Settled.rejected ra)
          (Settled.rejected rst) (Settled.rejected rr))
    ∧ OccursIn "😰 **Stress**: No data available\n"
        (aggregateHealthSummary dateRange (Settled.rejected rs) (Settled.rejected ra)
          (Settled.rejected rst) (Settled.rejected rr))
    ∧ OccursIn "⚡ **Readiness**: No data available\n"
        (aggregateHealthSummary dateRange (Settled.rejected rs) (Settled.rejected ra)
          (Settled.rejected rst) (Settled.rejected rr))
    ∧ OccursIn "• No data found - make sure to sync your Oura ring with the mobile app\n"
        (aggregateHealthSummary dateRange (Settled.rejected rs) (Settled.rejected ra)
          (Settled.rejected rst) (Settled.rejected rr))) := by
  constructor
  · refine ⟨"📅 **Period**: " ++ (dateRange.start_date ++ (" to " ++ (dateRange.end_date
      ++ ("\n\n" ++ (sleepSection s ++ (activitySection a ++ (stressSection st
      ++ (readinessSection r ++ ("\n💡 **Key Insights**:\n"
      ++ ((if anyFetchFailed s a st r then
            "• Some data types may not be available for your account or ring model\n"
          else "")
      ++ coverageInsight (totalDataPoints s a r))))))))))), ?_⟩
    simp only [aggregateHealthSummary, String.append_assoc]
  · intro rs ra rst rr
    obtain ⟨h1, h2, h3, h4, _, h6⟩ := aggregate_all_rejected_occurs dateRange rs ra rst rr
    exact ⟨h1, h2, h3, h4, h6⟩

/-- Claim C3: the coverage insight closes every composite report and is
computed from the record total over the sleep, activity and readiness outcomes
only; total 0 reports "No data found", a positive total below 3 reports
"Limited data available", and a total of at least 3 reports "Good data
coverage" — so the boundary sits exactly at 3. -/
theorem coverage_insight_spec (dateRange : DateRange)
    (s : Settled (MultiDocumentResponse DailySleepModel))
    (a : Settled (MultiDocumentResponse DailyActivityModel))
    (st : Settled (MultiDocumentResponse DailyStressModel))
    (r : Settled (MultiDocumentResponse DailyReadinessModel)) :
    (∃ pre, aggregateHealthSummary dateRange s a st r
        = pre ++ coverageInsight (totalDataPoints s a r))
  ∧ totalDataPoints s a r
      = settledDataLength s + settledDataLength a + settledDataLength r
  ∧ coverageInsight 0 = "• No data found - make sure to sync your Oura ring with the mobile app\n"
  ∧ (∀ t : ℕ, 0 < t → t < 3 →
      coverageInsight t = "• Limited data available - consider syncing your ring more regularly\n")
  ∧ (∀ t : ℕ, 3 ≤ t →
      coverageInsight t = "• Good data coverage - keep up the consistent tracking!\n")
  ∧ coverageInsight 2 = "• Limited data available - consider syncing your ring more regularly\n"
  ∧ coverageInsight 3 = "• Good data coverage - keep up the consistent tracking!\n" := by
  refine ⟨⟨_, rfl⟩, ?_, rfl, ?_, ?_, rfl, rfl⟩
  · simp only [totalDataPoints, List.foldl_cons, List.foldl_nil]
    omega
  · intro t h0 h3
    unfold coverageInsight
    rw [if_neg (by omega), if_pos h3]
  · intro t h3
    unfold coverageInsight
    rw [if_neg (by omega), if_neg (by omega)]

/-- Claim C3 witness: the boundary values 2 and 3 and a concrete all-settled
aggregate decomposition. -/
theorem coverage_insight_spec_witness :
    (0 < 2 ∧ 2 < 3 ∧ coverageInsight 2
      = "• Limited data available - consider syncing your ring more regularly\n")
  ∧ (3 ≤ 3 ∧ coverageInsight 3
      = "• Good data coverage - keep up the consistent tracking!\n") :=
  ⟨⟨by decide, by decide,
    (coverage_insight_spec ⟨"", ""⟩ (Settled.rejected "") (Settled.rejected "")
      (Settled.rejected "") (Settled.rejected "")).2.2.2.1 2 (by decide) (by decide)⟩,
   ⟨by decide,
    (coverage_insight_spec ⟨"", ""⟩ (Settled.rejected "") (Settled.rejected "")
      (Settled.rejected "") (Settled.rejected "")).2.2.2.2.1 3 (by decide)⟩⟩

/-- Claim C7: the "Some data types may not be available" insight is appended
to the composite report exactly when at least one of the four fetches settled
as rejected. -/
theorem failed_fetch_insight_spec (dateRange : DateRange)
    (s : Settled (MultiDocumentResponse DailySleepModel))
    (a : Settled (MultiDocumentResponse DailyActivityModel))
    (st : Settled (MultiDocumentResponse DailyStressModel))
    (r : Settled (MultiDocumentResponse DailyReadinessModel)) :
    (∃ pre, aggregateHealthSummary dateRange s a st r
        = pre
          ++ (if anyFetchFailed s a st r then
                "• Some data types may not be available for your account or ring model\n"
              else "")
          ++ coverageInsight (totalDataPoints s a r))
  ∧ (anyFetchFailed s a st r = true
      ↔ (s.isRejected = true ∨ a.isRejected = true ∨ st.isRejected = true ∨ r.isRejected = true)) := by
  constructor
  · exact ⟨_, rfl⟩
  · cases s <;> cases a <;> cases st <;> cases r <;>
      simp [anyFetchFailed, Settled.isRejected]

/-- Claim C9: in `executeGetOuraHealthSummary` and the four single-metric
execute functions, the explicit `start_date`/`end_date` bounds take precedence
only when both are supplied and non-empty; if either is missing or empty, both
are ignored and the range is resolved from the period token. -/
theorem explicit_bounds_spec (today : CivilDate) (period : String)
    (sd ed : Option String) :
    resolveDateRange today period none ed = getDateRange today period
  ∧ resolveDateRange today period sd none = getDateRange today period
  ∧ resolveDateRange today period (some "") ed = getDateRange today period
  ∧ resolveDateRange today period sd (some "") = getDateRange today period
  ∧ (∀ s e : String, s ≠ "" → e ≠ "" →
      resolveDateRange today period (some s) (some e) = ⟨s, e⟩)
  ∧ sleepRequestRange today period sd ed = resolveDateRange today period sd ed
  ∧ activityRequestRange today period sd ed = resolveDateRange today period sd ed
  ∧ stressRequestRange today period sd ed = resolveDateRange today period sd ed
  ∧ readinessRequestRange today period sd ed = resolveDateRange today period sd ed
  ∧ (∀ token ns na nst nr,
      executeGetOuraHealthSummary token today period sd ed ns na nst nr
        = aggregateHealthSummary (resolveDateRange today period sd ed)
            (makeOuraRequestSettled token ns) (makeOuraRequestSettled token na)
            (makeOuraRequestSettled token nst) (makeOuraRequestSettled token nr)) := by
  refine ⟨?_, ?_, ?_, ?_, ?_, rfl, rfl, rfl, rfl, fun token ns na nst nr => rfl⟩
  · simp [resolveDateRange, truthyString]
  · cases sd <;> simp [resolveDateRange, truthyString]
  · simp [resolveDateRange, truthyString]
  · cases sd <;> simp [resolveDateRange, truthyString]
  · intro s e hs he
    simp [resolveDateRange, truthyString, hs, he]

/-- Claim C9 witness: a supplied end bound with a missing start bound, and an
empty-string start bound, are both ignored; two non-empty bounds are used
verbatim. -/
theorem explicit_bounds_spec_witness :
    resolveDateRange ⟨2024, 3, 5⟩ "week" none (some "2024-01-01")
      = getDateRange ⟨2024, 3, 5⟩ "week"
  ∧ resolveDateRange ⟨2024, 3, 5⟩ "week" (some "") (some "2024-01-01")
      = getDateRange ⟨2024, 3, 5⟩ "week"
  ∧ ("2024-01-01" ≠ "" ∧ "2024-01-31" ≠ ""
      ∧ resolveDateRange ⟨2024, 3, 5⟩ "week" (some "2024-01-01") (some "2024-01-31")
          = ⟨"2024-01-01", "2024-01-31"⟩) :=
  ⟨(explicit_bounds_spec ⟨2024, 3, 5⟩ "week" none (some "2024-01-01")).1,
   (explicit_bounds_spec ⟨2024, 3, 5⟩ "week" (some "") (some "2024-01-01")).2.2.1,
   by decide, by decide,
   (explicit_bounds_spec ⟨2024, 3, 5⟩ "week" none none).2.2.2.2.1 "2024-01-01" "2024-01-31"
     (by decide) (by decide)⟩

/-- Claim C10: with no configured (or an empty) `OURA_API_TOKEN`, the
health-summary function does not return the setup-required message: all four
fetches reject inside the settle-all join, and the result is the degraded
composite report carrying the four "No data available" lines, the
"Some data types may not be available" insight and the "No data found"
insight. -/
theorem missing_token_spec (token : Option String) (htok : truthyString token = false)
    (today : CivilDate) (period : String) (sd ed : Option String)
    (ns : Settled (MultiDocumentResponse DailySleepModel))
    (na : Settled (MultiDocumentResponse DailyActivityModel))
    (nst : Settled (MultiDocumentResponse DailyStressModel))
    (nr : Settled (MultiDocumentResponse DailyReadinessModel)) :
    executeGetOuraHealthSummary token today period sd ed ns na nst nr
      = aggregateHealthSummary (resolveDateRange today period sd ed)
          (Settled.rejected "Oura API token not configured")
          (Settled.rejected "Oura API token not configured")
          (Settled.rejected "Oura API token not configured")
          (Settled.rejected "Oura API token not configured")
  ∧ OccursIn "😴 **Sleep**: No data available\n"
      (executeGetOuraHealthSummary token today period sd ed ns na nst nr)
  ∧ OccursIn "🏃 **Activity**: No data available\n"
      (executeGetOuraHealthSummary token today period sd ed ns na nst nr)
  ∧ OccursIn "😰 **Stress**: No data available\n"
      (executeGetOuraHealthSummary token today period sd ed ns na nst nr)
  ∧ OccursIn "⚡ **Readiness**: No data available\n"
      (executeGetOuraHealthSummary token today period sd ed ns na nst nr)
  ∧ OccursIn "• Some data types may not be available for your account or ring model\n"
      (executeGetOuraHealthSummary token today period sd ed ns na nst nr)
  ∧ OccursIn "• No data found - make sure to sync your Oura ring with the mobile app\n"
      (executeGetOuraHealthSummary token today period sd ed ns na nst nr)
  ∧ executeGetOuraHealthSummary token today period sd ed ns na nst nr
      ≠ ouraSetupRequiredUserMessage := by
  have hreq : ∀ {α : Type} (u : Settled α),
      makeOuraRequestSettled token u = Settled.rejected "Oura API token not configured" := by
    intro α u
    unfold makeOuraRequestSettled
    rw [htok]
    rfl
  have heq : executeGetOuraHealthSummary token today period sd ed ns na nst nr
      = aggregateHealthSummary (resolveDateRange today period sd ed)
          (Settled.rejected "Oura API token not configured")
          (Settled.rejected "Oura API token not configured")
          (Settled.rejected "Oura API token not configured")
          (Settled.rejected "Oura API token not configured") := by
    unfold executeGetOuraHealthSummary
    rw [hreq ns, hreq na, hreq nst, hreq nr]
  obtain ⟨h1, h2, h3, h4, h5, h6⟩ := aggregate_all_rejected_occurs
    (resolveDateRange today period sd ed)
    "Oura API token not configured" "Oura API token not configured"
    "Oura API token not configured" "Oura API token not configured"
  rw [heq]
  exact ⟨rfl, h1, h2, h3, h4, h5, h6, aggregate_ne_setup _ _ _ _ _⟩

/-- Claim C10 witness: with no token configured the summary is the degraded
report, not the setup-required message. -/
theorem missing_token_spec_witness :
    truthyString none = false
  ∧ executeGetOuraHealthSummary none ⟨2024, 3, 5⟩ "week" none none
      (Settled.rejected "net") (Settled.rejected "net") (Settled.rejected "net")
      (Settled.rejected "net")
      ≠ ouraSetupRequiredUserMessage :=
  ⟨by decide,
   (missing_token_spec none (by decide) ⟨2024, 3, 5⟩ "week" none none
      (Settled.rejected "net") (Settled.rejected "net") (Settled.rejected "net")
      (Settled.rejected "net")).2.2.2.2.2.2.2⟩

/-- Every month has at least 28 days. -/
theorem daysInMonth_pos (y m : ℕ) : 1 ≤ daysInMonth y m := by
  unfold daysInMonth
  split_ifs <;> omega

/-- Every month has at most 31 days. -/
theorem daysInMonth_le (y m : ℕ) : daysInMonth y m ≤ 31 := by
  unfold daysInMonth
  split_ifs <;> omega

/-- December has 31 days. -/
theorem daysInMonth_twelve (y : ℕ) : daysInMonth y 12 = 31 := by
  norm_num [daysInMonth]

/-- `prevDay` preserves validity and decreases the date key by at most 34. -/
theorem prevDay_spec (d : CivilDate) (hv : d.Valid) (hy : 1 ≤ d.year) :
    (prevDay d).Valid ∧ toOrd d - 34 ≤ toOrd (prevDay d) ∧ toOrd (prevDay d) < toOrd d
      ∧ (prevDay d).year ≤ d.year := by
  obtain ⟨hm1, hm2, hd1, hd2⟩ := hv
  have hdle := daysInMonth_le d.year d.month
  unfold prevDay
  split_ifs with hd hm
  · refine ⟨⟨?_, ?_, ?_, ?_⟩, ?_, ?_, ?_⟩ <;>
      simp only [CivilDate.Valid, toOrd] <;> omega
  · have hp := daysInMonth_pos d.year (d.month - 1)
    have hl := daysInMonth_le d.year (d.month - 1)
    refine ⟨⟨?_, ?_, ?_, ?_⟩, ?_, ?_, ?_⟩ <;>
      simp only [CivilDate.Valid, toOrd] <;> omega
  · have h12 := daysInMonth_twelve (d.year - 1)
    refine ⟨⟨?_, ?_, ?_, ?_⟩, ?_, ?_, ?_⟩ <;>
      simp only [CivilDate.Valid, toOrd] <;> omega

/-- `subDays` preserves validity and never increases the date key nor the
year, provided the key leaves room for the requested number of steps. -/
theorem subDays_spec : ∀ (n : ℕ) (d : CivilDate), d.Valid → 450 + 34 * n ≤ toOrd d →
    (subDays d n).Valid ∧ toOrd (subDays d n) ≤ toOrd d ∧ (subDays d n).year ≤ d.year
  | 0, d, hv, _ => ⟨hv, le_refl _, le_refl _⟩
  | n + 1, d, hv, hord => by
    have hdle := daysInMonth_le d.year d.month
    have hy : 1 ≤ d.year := by
      obtain ⟨hm1, hm2, hd1, hd2⟩ := hv
      simp only [toOrd] at hord
      omega
    obtain ⟨pv, plo, phi, pyr⟩ := prevDay_spec d hv hy
    obtain ⟨v, hle, hyr⟩ := subDays_spec n (prevDay d) pv (by omega)
    refine ⟨?_, ?_, ?_⟩
    · show (subDays (prevDay d) n).Valid
      exact v
    · show toOrd (subDays (prevDay d) n) ≤ toOrd d
      omega
    · show (subDays (prevDay d) n).year ≤ d.year
      omega

/-- `Nat.digitChar` is strictly monotone on single digits. -/
theorem decDigit_lt_iff (x y : ℕ) : decDigit x < decDigit y ↔ x % 10 < y % 10 := by
  have hx : x % 10 < 10 := Nat.mod_lt _ (by norm_num)
  have hy : y % 10 < 10 := Nat.mod_lt _ (by norm_num)
  have key : ∀ a b : Fin 10,
      (Nat.digitChar (a : ℕ) < Nat.digitChar (b : ℕ) ↔ (a : ℕ) < (b : ℕ)) := by decide
  exact key ⟨x % 10, hx⟩ ⟨y % 10, hy⟩

/-- `Nat.digitChar` is injective on single digits. -/
theorem decDigit_inj (x y : ℕ) (h : decDigit x = decDigit y) : x % 10 = y % 10 := by
  have hx := decDigit_lt_iff x y
  have hy := decDigit_lt_iff y x
  rw [h] at hx
  rw [← h] at hy
  simp at hx hy
  omega

/-- Digit characters are decimal digits. -/
theorem decDigit_isDigit (n : ℕ) : (decDigit n).isDigit = true := by
  have hn : n % 10 < 10 := Nat.mod_lt _ (by norm_num)
  have key : ∀ a : Fin 10, (Nat.digitChar (a : ℕ)).isDigit = true := by decide
  exact key ⟨n % 10, hn⟩

/-- Formatted dates always have the `YYYY-MM-DD` shape. -/
theorem isYYYYMMDD_formatDate (d : CivilDate) : isYYYYMMDD (formatDate d) = true := by
  have hdata : (formatDate d).data = [decDigit (d.year / 1000), decDigit (d.year / 100),
      decDigit (d.year / 10), decDigit d.year, '-', decDigit (d.month / 10), decDigit d.month,
      '-', decDigit (d.day / 10), decDigit d.day] := rfl
  simp [isYYYYMMDD, hdata, decDigit_isDigit]

/-- Head inversion for the lexicographic list order. -/
theorem lex_cons_inv {r : Char → Char → Prop} {x y : Char} {xs ys : List Char}
    (h : List.Lex r (x :: xs) (y :: ys)) : r x y ∨ (x = y ∧ List.Lex r xs ys) := by
  cases h with
  | cons h => exact Or.inr ⟨rfl, h⟩
  | rel h => exact Or.inl h

/-- A smaller date key yields a string-wise smaller `YYYY-MM-DD` rendering
(for valid dates with at most four-digit years). -/
theorem formatDate_le (s e : CivilDate) (hs : s.Valid) (he : e.Valid)
    (hs9 : s.year ≤ 9999) (he9 : e.year ≤ 9999) (h : toOrd s ≤ toOrd e) :
    formatDate s ≤ formatDate e := by
  rw [String.le_iff_toList_le]
  refine le_of_not_lt ?_
  intro hlt
  obtain ⟨hm1, hm2, hd1, hd2⟩ := hs
  obtain ⟨hm1', hm2', hd1', hd2'⟩ := he
  have hds : s.day ≤ 31 := le_trans hd2 (daysInMonth_le _ _)
  have hde : e.day ≤ 31 := le_trans hd2' (daysInMonth_le _ _)
  simp only [toOrd] at h
  have hE : (formatDate e).toList = [decDigit (e.year / 1000), decDigit (e.year / 100),
      decDigit (e.year / 10), decDigit e.year, '-', decDigit (e.month / 10), decDigit e.month,
      '-', decDigit (e.day / 10), decDigit e.day] := rfl
  have hS : (formatDate s).toList = [decDigit (s.year / 1000), decDigit (s.year / 100),
      decDigit (s.year / 10), decDigit s.year, '-', decDigit (s.month / 10), decDigit s.month,
      '-', decDigit (s.day / 10), decDigit s.day] := rfl
  rw [hE, hS] at hlt
  rcases lex_cons_inv hlt with h1 | ⟨heq1, hlt⟩
  · have := (decDigit_lt_iff _ _).mp h1
    omega
  · have e1 := decDigit_inj _ _ heq1
    rcases lex_cons_inv hlt with h2 | ⟨heq2, hlt⟩
    · have := (decDigit_lt_iff _ _).mp h2
      omega
    · have e2 := decDigit_inj _ _ heq2
      rcases lex_cons_inv hlt with h3 | ⟨heq3, hlt⟩
      · have := (decDigit_lt_iff _ _).mp h3
        omega
      · have e3 := decDigit_inj _ _ heq3
        rcases lex_cons_inv hlt with h4 | ⟨heq4, hlt⟩
        · have := (decDigit_lt_iff _ _).mp h4
          omega
        · have e4 := decDigit_inj _ _ heq4
          rcases lex_cons_inv hlt with h5 | ⟨heq5, hlt⟩
          · exact absurd h5 (by decide)
          · rcases lex_cons_inv hlt with h6 | ⟨heq6, hlt⟩
            · have := (decDigit_lt_iff _ _).mp h6
              omega
            · have e6 := decDigit_inj _ _ heq6
              rcases lex_cons_inv hlt with h7 | ⟨heq7, hlt⟩
              · have := (decDigit_lt_iff _ _).mp h7
                omega
              · have e7 := decDigit_inj _ _ heq7
                rcases lex_cons_inv hlt with h8 | ⟨heq8, hlt⟩
                · exact absurd h8 (by decide)
                · rcases lex_cons_inv hlt with h9 | ⟨heq9, hlt⟩
                  · have := (decDigit_lt_iff _ _).mp h9
                    omega
                  · have e9 := decDigit_inj _ _ heq9
                    rcases lex_cons_inv hlt with h10 | ⟨heq10, hlt⟩
                    · have := (decDigit_lt_iff _ _).mp h10
                      omega
                    · cases hlt

/-- Claim C8: the period resolver always succeeds and returns a range with
`start_date ≤ end_date` (string order), both formatted `YYYY-MM-DD`; the
`week` token resolves to the 7-day inclusive window ending today, and every
token outside {today, yesterday, week, month} resolves to exactly the `week`
range. (Stated for valid current dates with 4 ≤ year ≤ 9999, so that the
30-day backward window stays within the proleptic calendar model.) -/
theorem period_resolver_spec (today : CivilDate) (hv : today.Valid)
    (hy4 : 4 ≤ today.year) (hy9 : today.year ≤ 9999) (period : String) :
    (getDateRange today period).start_date ≤ (getDateRange today period).end_date
  ∧ isYYYYMMDD (getDateRange today period).start_date = true
  ∧ isYYYYMMDD (getDateRange today period).end_date = true
  ∧ getDateRange today "week" = ⟨formatDate (subDays today 6), formatDate today⟩
  ∧ (period ≠ "today" → period ≠ "yesterday" → period ≠ "week" → period ≠ "month" →
      getDateRange today period = getDateRange today "week") := by
  have hm1 := hv.1
  have hd1 := hv.2.2.1
  have ht : 1436 ≤ toOrd today := by
    simp only [toOrd]
    omega
  obtain ⟨hv6, hord6, hyr6⟩ := subDays_spec 6 today hv (by omega)
  obtain ⟨hv29, hord29, hyr29⟩ := subDays_spec 29 today hv (by omega)
  have hle6 : formatDate (subDays today 6) ≤ formatDate today :=
    formatDate_le _ _ hv6 hv (le_trans hyr6 hy9) hy9 hord6
  have hle29 : formatDate (subDays today 29) ≤ formatDate today :=
    formatDate_le _ _ hv29 hv (le_trans hyr29 hy9) hy9 hord29
  have hweek : getDateRange today "week" = ⟨formatDate (subDays today 6), formatDate today⟩ := rfl
  refine ⟨?_, ?_, ?_, hweek, ?_⟩
  · unfold getDateRange
    split_ifs
    · exact le_refl _
    · exact le_refl _
    · exact hle6
    · exact hle29
    · exact hle6
  · unfold getDateRange
    split_ifs <;> exact isYYYYMMDD_formatDate _
  · unfold getDateRange
    split_ifs <;> exact isYYYYMMDD_formatDate _
  · intro h1 h2 h3 h4
    rw [hweek]
    unfold getDateRange
    rw [if_neg h1, if_neg h2, if_neg h3, if_neg h4]

/-- Claim C8 witness at the concrete current date 2024-03-05 and the token
"unknown-token". -/
theorem period_resolver_spec_witness :
    CivilDate.Valid ⟨2024, 3, 5⟩
  ∧ 4 ≤ (⟨2024, 3, 5⟩ : CivilDate).year
  ∧ (⟨2024, 3, 5⟩ : CivilDate).year ≤ 9999
  ∧ ((getDateRange ⟨2024, 3, 5⟩ "unknown-token").start_date
        ≤ (getDateRange ⟨2024, 3, 5⟩ "unknown-token").end_date
    ∧ isYYYYMMDD (getDateRange ⟨2024, 3, 5⟩ "unknown-token").start_date = true
    ∧ isYYYYMMDD (getDateRange ⟨2024, 3, 5⟩ "unknown-token").end_date = true
    ∧ getDateRange ⟨2024, 3, 5⟩ "week"
        = ⟨formatDate (subDays ⟨2024, 3, 5⟩ 6), formatDate ⟨2024, 3, 5⟩⟩
    ∧ ("unknown-token" ≠ "today" → "unknown-token" ≠ "yesterday" →
        "unknown-token" ≠ "week" → "unknown-token" ≠ "month" →
        getDateRange ⟨2024, 3, 5⟩ "unknown-token" = getDateRange ⟨2024, 3, 5⟩ "week")) :=
  ⟨by decide, by decide, by decide,
   period_resolver_spec ⟨2024, 3, 5⟩ (by decide) (by decide) (by decide) "unknown-token"⟩
